import Mathlib

/-
  Verification of the bank2qif import/normalization pipeline.

  Shallow embedding of src/bank2qif.py: the field normalizers
  (normalize_field, normalize_num), the transaction data model
  (TransactionData, SplitItem), the fixed-width GPC importer (FioImport),
  the header-sniff delimited-row iterator (BankImporter.dirty_csv_iterator)
  and the QIF serializer (write_qif).

  Modelling conventions:
  - Python floats are modelled as exact rationals; the decimal strings in
    bank statements denote exact decimal quantities and no claim here
    depends on binary rounding error.  Formatting "%.2f" is modelled by
    rounding to integer cents; Python rounds ties on the binary value to
    even, but a two-decimal tie (an odd multiple of 1/200) is never exactly
    representable in binary floating point, so no tie is ever exercised and
    all inputs used below are tie-free.
  - Fallible Python code (raised exceptions) is modelled with Option/Except.
  - Character streams are modelled as lists of lines (without the trailing
    newline character, which no sliced field of any modelled format reaches).
-/

namespace Bank2Qif

attribute [local semireducible] Rat.add Rat.mul Rat.inv Rat.sub

/-- The whitespace set of Python str.strip() and of the ASCII fragment of
the regex class used by BankImporter.multispace_re.  (The formats handled
by the program only produce ASCII whitespace.) -/
def isPySpace (c : Char) : Bool :=
  c == ' ' || c == '\t' || c == '\n' || c == '\r' || c == '\x0b' || c == '\x0c'

/-- Python str.strip() on a character list. -/
def pyStripList (cs : List Char) : List Char :=
  ((cs.dropWhile isPySpace).reverse.dropWhile isPySpace).reverse

/-- Python str.strip() with no arguments. -/
def pyStrip (s : String) : String :=
  (pyStripList s.toList).asString

/-- Python str.rstrip with a single newline argument. -/
def rstripNewline (s : String) : String :=
  ((s.toList.reverse.dropWhile (fun c => c == '\n')).reverse).asString

/-- Python slicing line[a:b] on a string (b an absolute end offset). -/
def strSlice (s : String) (a b : Nat) : String :=
  ((s.toList.drop a).take (b - a)).asString

/-- Python single-character indexing line[i]; none models IndexError. -/
def charAt (s : String) (i : Nat) : Option Char :=
  s.toList.get? i

/-- Python str.lstrip with argument a single zero character. -/
def lstripZeros (s : String) : String :=
  (s.toList.dropWhile (fun c => c == '0')).asString

/-- Whether the first list is a prefix of the second. -/
def isPrefixList : List Char → List Char → Bool
  | [], _ => true
  | _ :: _, [] => false
  | a :: as, b :: bs => a == b && isPrefixList as bs

/-- Python str.startswith: s.startswith(h). -/
def pyStartsWith (s h : String) : Bool :=
  isPrefixList h.toList s.toList

/-- Numeric value of a decimal digit character. -/
def digitVal (c : Char) : Nat := c.toNat - 48

/-- Parse a nonempty all-digit character run as a natural number, the
fragment of Python int()/float() exercised by the GPC fixed-width fields
(which are zero-padded decimal digit runs). -/
def parseDigits (cs : List Char) : Option Nat :=
  if cs.isEmpty then none
  else if cs.all Char.isDigit then
    some (cs.foldl (fun a c => a * 10 + digitVal c) 0)
  else none

/-- The plain-decimal fragment of Python float(): optional sign, digits,
optional decimal point and fraction digits, with surrounding whitespace
tolerated.  Exponent, underscore and inf/nan forms never occur in the
amount fields of the handled formats and are not modelled. -/
def parseDecimal (s : String) : Option ℚ :=
  let cs := pyStripList s.toList
  let signed : Bool × List Char :=
    match cs with
    | '-' :: rest => (true, rest)
    | '+' :: rest => (false, rest)
    | _ => (false, cs)
  let mag : Option ℚ :=
    match signed.2.splitOn '.' with
    | [ip] => (parseDigits ip).map (fun n => (n : ℚ))
    | [ip, fp] =>
      if ip.isEmpty && fp.isEmpty then none
      else
        match (if ip.isEmpty then some 0 else parseDigits ip),
              (if fp.isEmpty then some 0 else parseDigits fp) with
        | some a, some b => some ((a : ℚ) + (b : ℚ) / (10 : ℚ) ^ fp.length)
        | _, _ => none
    | _ => none
  mag.map (fun q => if signed.1 then -q else q)

/-- The text cleanup inside normalize_num:
text.replace(a-comma, a-dot).replace(a-space, nothing).strip(). -/
def numClean (text : String) : String :=
  pyStrip (((text.toList.map (fun c => if c == ',' then '.' else c)).filter
    (fun c => c != ' ')).asString)

instance : DecidableEq (Except Unit (Option ℚ)) := fun a b =>
  match a, b with
  | Except.ok x, Except.ok y =>
    if h : x = y then isTrue (by rw [h])
    else isFalse (fun hc => h (by injection hc))
  | Except.error x, Except.error y => isTrue (by cases x; cases y; rfl)
  | Except.ok _, Except.error _ => isFalse (fun hc => Except.noConfusion hc)
  | Except.error _, Except.ok _ => isFalse (fun hc => Except.noConfusion hc)

/-- normalize_num (src/bank2qif.py lines 55-60).  Except.ok none models the
Python return value None (absent); Except.error models the ValueError that
float() raises on unparseable text. -/
def normalize_num (text : String) : Except Unit (Option ℚ) :=
  let t := numClean text
  if t = "" then Except.ok none
  else
    match parseDecimal t with
    | some q => Except.ok (some q)
    | none => Except.error ()

/-- re.sub of one-or-more-whitespace with a single space, as the scanner
the regex engine performs: the flag records an open whitespace run, which
is emitted as exactly one space when it closes (also at the end of the
input). -/
def collapseWsGo (pending : Bool) : List Char → List Char
  | [] => if pending then [' '] else []
  | c :: rest =>
    if isPySpace c then collapseWsGo true rest
    else (if pending then [' ', c] else [c]) ++ collapseWsGo false rest

/-- re.sub of one-or-more-whitespace with a single space: every maximal run
of whitespace characters becomes one space. -/
def collapseWs (cs : List Char) : List Char := collapseWsGo false cs

/-- The straight double quote and straight single quote, the two characters
removed by normalize_field. -/
def straightQuote (c : Char) : Bool :=
  c == '"' || c == Char.ofNat 39

/-- normalize_field (src/bank2qif.py lines 50-52): collapse whitespace runs,
drop straight quote characters, strip. -/
def normalize_field (text : String) : String :=
  pyStrip ((collapseWs text.toList).filter (fun c => !straightQuote c)).asString

/-- Run-collapsing written from the spec wording, by one-character
lookahead: a whitespace character contributes a single space exactly when
it closes its maximal run. -/
def collapseLook : List Char → List Char
  | [] => []
  | [c] => if isPySpace c then [' '] else [c]
  | c1 :: c2 :: rest =>
    if isPySpace c1 then
      (if isPySpace c2 then [] else [' ']) ++ collapseLook (c2 :: rest)
    else c1 :: collapseLook (c2 :: rest)

/-- The straight quote characters, as a character set. -/
def straightQuoteChars : List Char := ['"', Char.ofNat 39]

/-- Modelled from the amended spec wording: collapse every whitespace run to
a single space, strip the straight quote characters, trim. -/
def normalizeFieldSpec (text : String) : String :=
  pyStrip (((collapseLook text.toList).filter
    (fun c => !(decide (c ∈ straightQuoteChars)))).asString)

/-- The quote set the original spec sentence asserts: straight and curly
quote characters. -/
def claimedQuoteChars : List Char :=
  ['"', Char.ofNat 39, Char.ofNat 8216, Char.ofNat 8217,
   Char.ofNat 8220, Char.ofNat 8221]

/-- Modelled from the spec claim as written: collapse whitespace runs, strip
straight AND curly quote characters, trim. -/
def normalizeFieldClaimed (text : String) : String :=
  pyStrip (((collapseLook text.toList).filter
    (fun c => !(decide (c ∈ claimedQuoteChars)))).asString)

/-- A calendar date as carried by a transaction (the Python datetime.date
day/month/year attributes read by the serializer). -/
structure Date where
  year : Nat
  month : Nat
  day : Nat
deriving DecidableEq, Repr

/-- SplitItem (src/bank2qif.py lines 74-78): a sub-amount with an optional
memo. -/
structure SplitItem where
  amount : ℚ
  message : Option String
deriving DecidableEq, Repr

/-- TransactionData (src/bank2qif.py lines 81-100).  Fields that default to
Python None are Options; message is a plain string because __init__
unconditionally strips it, so no constructed transaction carries None. -/
structure TransactionData where
  date : Option Date
  amount : Option ℚ
  destination : Option String
  message : String
  ident : Option String
  splits : List SplitItem
deriving DecidableEq, Repr

/-- TransactionData.__init__ (lines 83-89).  The message argument is
stripped unconditionally; passing the default None raises AttributeError,
modelled by none. -/
def TransactionData.init (date : Option Date) (amount : Option ℚ)
    (destination : Option String) (message : Option String)
    (ident : Option String) : Option TransactionData :=
  match message with
  | none => none
  | some m =>
    some { date := date, amount := amount, destination := destination,
           message := pyStrip m, ident := ident, splits := [] }

/-- TransactionData.get_amount (lines 95-100): the split sum when splits is
non-empty (Python truthiness of a list), else the plain amount field. -/
def TransactionData.get_amount (t : TransactionData) : Option ℚ :=
  if t.splits ≠ [] then some ((t.splits.map SplitItem.amount).sum)
  else t.amount

/-- Python truthiness of an Option String field: present and non-empty. -/
def optTruthy : Option String → Bool
  | none => false
  | some s => !s.isEmpty

/-- The integer number of cents printed by a two-decimal format of q.
Rounds half up; see the file header note on ties. -/
def round2cents (q : ℚ) : Int := (100 * q + 1 / 2).floor

/-- The two-decimal rounding of q as a rational. -/
def round2 (q : ℚ) : ℚ := (round2cents q : ℚ) / 100

/-- Left-pad a sub-hundred numeral to two digits. -/
def pad2 (n : Nat) : String :=
  if n < 10 then "0" ++ toString n else toString n

/-- The Python two-decimal float format of q. -/
def fmt2 (q : ℚ) : String :=
  (if round2cents q < 0 then "-" else "")
    ++ toString ((round2cents q).natAbs / 100) ++ "."
    ++ pad2 ((round2cents q).natAbs % 100)

/-- The lines written for one split (write_qif lines 600-603): an E memo
line when the split message is truthy, then the two-decimal amount line. -/
def splitLines (s : SplitItem) : List String :=
  (if optTruthy s.message then ["E" ++ s.message.getD ""] else [])
    ++ ["$" ++ fmt2 s.amount]

/-- The block of lines write_qif writes for one transaction (lines
587-604).  none models the Python crash when the transaction has no date,
or no amount and no splits. -/
def qifBlock (t : TransactionData) : Option (List String) :=
  match t.date, t.get_amount with
  | some dt, some amt =>
    some (("D" ++ toString dt.month ++ "/" ++ toString dt.day ++ "/"
            ++ toString dt.year)
      :: ("T" ++ fmt2 amt)
      :: ((if optTruthy t.ident then ["#" ++ t.ident.getD ""] else [])
        ++ (if !t.message.isEmpty then ["M" ++ t.message] else [])
        ++ (if optTruthy t.destination then ["P" ++ t.destination.getD ""] else [])
        ++ (if t.splits.length > 1 then t.splits.flatMap splitLines else [])
        ++ ["^"]))
  | _, _ => none

/-- The per-transaction loop of write_qif over a transaction list. -/
def qifBlocks : List TransactionData → Option (List (List String))
  | [] => some []
  | t :: ts =>
    match qifBlock t, qifBlocks ts with
    | some b, some bs => some (b :: bs)
    | _, _ => none

/-- write_qif (lines 582-604) as the list of output lines: the single
leading type declaration followed by the transaction blocks in order. -/
def write_qif (transactions : List TransactionData) : Option (List String) :=
  (qifBlocks transactions).map (fun blocks => "!Type:Bank" :: blocks.flatten)

/-- An optional tagged output line, from the spec wording: absent or empty
values produce no line at all rather than an empty-valued line. -/
def optLine (tag : String) : Option String → List String
  | none => []
  | some v => if v = "" then [] else [tag ++ v]

/-- Split lines per the spec wording: an optional E memo line followed by a
two-decimal amount line. -/
def specSplitLines (s : SplitItem) : List String :=
  optLine "E" s.message ++ ["$" ++ fmt2 s.amount]

/-- One output block per the spec wording: D month/day/year unpadded, T
effective amount to two decimals, optional identifier, message,
destination lines, split pairs only with two or more splits, and the
closing caret line. -/
def specBlock (t : TransactionData) : Option (List String) := do
  let dt ← t.date
  let amt ← t.get_amount
  pure (["D" ++ toString dt.month ++ "/" ++ toString dt.day ++ "/"
          ++ toString dt.year,
         "T" ++ fmt2 amt]
    ++ optLine "#" t.ident
    ++ optLine "M" (some t.message)
    ++ optLine "P" t.destination
    ++ (if 2 ≤ t.splits.length then t.splits.flatMap specSplitLines else [])
    ++ ["^"])

/-- The serializer contract per the spec wording: exactly one leading type
line, then one block per transaction in sequence order. -/
def serializeSpec (ts : List TransactionData) : Option (List String) := do
  let blocks ← ts.mapM specBlock
  pure ("!Type:Bank" :: blocks.flatten)

/-- Leap year rule implemented by the Python date constructor. -/
def isLeapYear (y : Nat) : Bool :=
  (y % 4 == 0 && y % 100 != 0) || y % 400 == 0

/-- Length of a month, as validated by the Python date constructor. -/
def daysInMonth (y m : Nat) : Nat :=
  if m = 2 then (if isLeapYear y then 29 else 28)
  else if m = 4 ∨ m = 6 ∨ m = 9 ∨ m = 11 then 30
  else 31

/-- The calendar validity check the Python date constructor performs. -/
def validDate (y m d : Nat) : Bool :=
  1 ≤ m && m ≤ 12 && 1 ≤ d && d ≤ daysInMonth y m

/-- The field extraction FioImport.__iter__ performs on one transaction
line after its record tag has been checked (src/bank2qif.py lines
444-472): type digit at offset 60, amount from the scaled integer at
offsets 48-60 with a sign flip for types 1 and 5, date at offsets 122-128,
destination from offsets 19-35 and 71-81, message at 97-117, identifier at
35-48.  none models the ValueError/IndexError a malformed line raises. -/
def fioParseBody (line : String) : Option TransactionData :=
  match charAt line 60 with
  | none => none
  | some c =>
    if c.isDigit then
      match parseDigits (strSlice line 48 60).toList with
      | none => none
      | some cents =>
        let tamount : ℚ :=
          if digitVal c = 1 ∨ digitVal c = 5
          then -((cents : ℚ) / 100) else (cents : ℚ) / 100
        match parseDigits (strSlice line 122 124).toList,
              parseDigits (strSlice line 124 126).toList,
              parseDigits (strSlice line 126 128).toList with
        | some d, some m, some yy =>
          if validDate (2000 + yy) m d then
            let tbankcode := strSlice (lstripZeros (strSlice line 71 81)) 0 4
            let tdestacc := lstripZeros (strSlice line 19 35)
            let tdest :=
              if tdestacc = "" then none
              else some (tdestacc ++ "/" ++ tbankcode)
            TransactionData.init (some ⟨2000 + yy, m, d⟩) (some tamount)
              tdest (some (pyStrip (strSlice line 97 117)))
              (some (strSlice line 35 48))
          else none
        | _, _, _ => none
    else none

/-- The two fatal error classes FioImport.__iter__ can raise:
BadRecordTypeException with its 1-based line number, or the
ValueError/IndexError of a malformed field. -/
inductive FioError
  | badRecordType (lineNo : Nat)
  | valueError
deriving DecidableEq, Repr

/-- Processing of one non-first input line of the fio importer (lines
437-472): the record tag must be the transaction tag, then the fields are
extracted. -/
def fioLine (lineNo : Nat) (line : String) : Except FioError TransactionData :=
  if strSlice line 0 3 ≠ "075" then Except.error (FioError.badRecordType lineNo)
  else
    match fioParseBody line with
    | some t => Except.ok t
    | none => Except.error FioError.valueError

/-- The transaction loop of FioImport.__iter__ over the remaining lines:
lineNo is the 1-based number of the previously consumed line.  Returns the
transactions yielded before termination and the error that stopped the
iteration, if any. -/
def fioGo : Nat → List String → List TransactionData × Option FioError
  | _, [] => ([], none)
  | lineNo, l :: ls =>
    match fioLine (lineNo + 1) l with
    | Except.error e => ([], some e)
    | Except.ok t =>
      let r := fioGo (lineNo + 1) ls
      (t :: r.1, r.2)

/-- FioImport.__iter__ (lines 425-472) over the input lines: the first line
must carry the account record tag (an empty input reads as an empty first
line, which also fails), then every further line is a transaction line. -/
def fioIter (lines : List String) : List TransactionData × Option FioError :=
  match lines with
  | [] => ([], some (FioError.badRecordType 1))
  | first :: rest =>
    if strSlice first 0 3 ≠ "074" then ([], some (FioError.badRecordType 1))
    else fioGo 1 rest

/-- How the dirty_csv_iterator generator terminates: normal exhaustion of
the input, or the raise of StopIteration inside the generator body on a
blank row (which PEP 479 turns into a RuntimeError in the running
interpreter). -/
inductive IterEnd
  | eof
  | stopIterationRaised
deriving DecidableEq, Repr

/-- The headline translation step of dirty_csv_iterator (lines 176-178):
strip the trailing newline, split on semicolons, map each cell through the
field translation table, rejoin. -/
def translateHeadline (ftrans : List (String × String)) (line : String) : String :=
  (List.intercalate [';']
    (((((rstripNewline line).toList.splitOn ';').map List.asString).map
      (fun h => (ftrans.lookup h).getD h)).map String.toList)).asString

/-- The line loop of dirty_csv_iterator (lines 170-186), with the
processing_data flag explicit: before the header line everything is
skipped; the header line is translated and turns processing on; once
processing, a blank line raises StopIteration and any other line is
yielded without its trailing newline. -/
def dirtyCsvGo (headline : String) (ftrans : List (String × String)) :
    Bool → List String → List String × IterEnd
  | _, [] => ([], IterEnd.eof)
  | processing, line :: rest =>
    let step : String × Bool :=
      if pyStartsWith line headline then (translateHeadline ftrans line, true)
      else (line, processing)
    if step.2 then
      let stripped := rstripNewline step.1
      if stripped = "" then ([], IterEnd.stopIterationRaised)
      else
        let r := dirtyCsvGo headline ftrans step.2 rest
        (stripped :: r.1, r.2)
    else dirtyCsvGo headline ftrans step.2 rest

/-- BankImporter.dirty_csv_iterator (lines 165-186): the yielded lines and
the way the generator ends. -/
def dirty_csv_iterator (headline : String) (ftrans : List (String × String))
    (lines : List String) : List String × IterEnd :=
  dirtyCsvGo headline ftrans false lines

/-- A decoded delimited record as the csv DictReader hands it to
BankImporter.__iter__: canonical field name to cell text; a missing key
models the Python KeyError through a failed lookup. -/
abbrev Row : Type := List (String × String)

/-- Python int() on the decimal strings reaching date fields: surrounding
whitespace tolerated, an optional plus sign, digits.  Forms int() rejects,
and negative values (which the subsequent date construction rejects
anyway), are folded into the failure case. -/
def parsePyNat (s : String) : Option Nat :=
  match pyStripList s.toList with
  | '+' :: rest => parseDigits rest
  | cs => parseDigits cs

/-- float(normalize_num(text)) as the importers call it (lines 130, 357,
406, 553): the parsed number, with the ValueError of unparseable text and
the TypeError of float(None) folded into the failure case. -/
def floatNormNum (text : String) : Option ℚ :=
  match normalize_num text with
  | Except.ok (some q) => some q
  | _ => none

/-- The overridable field accessors BankImporter.__iter__ dispatches to
(self.get_dmy and friends); subclasses override some of them, so the
shared loop is parametrized by this record.  Each accessor returns none
where the Python method raises. -/
structure Getters where
  get_dmy : Row → Option (String × String × String)
  get_amount : Row → Option String
  get_trans_type : Row → Option String
  get_message : Row → Option String
  get_from_to : Row → Option String
  get_acc : Row → Option String

/-- The base-class accessors (lines 146-163): straight dictionary reads,
the date split on dashes into day, month, year. -/
def baseGetters : Getters where
  get_dmy := fun row => (List.lookup "date" row).bind (fun s =>
    match (s.toList.splitOn '-').map List.asString with
    | [d, m, y] => some (d, m, y)
    | _ => none)
  get_amount := fun row => List.lookup "amount" row
  get_trans_type := fun row => List.lookup "trans_type" row
  get_message := fun row => List.lookup "message" row
  get_from_to := fun row => List.lookup "from/to" row
  get_acc := fun row => List.lookup "recipient" row

/-- The body of BankImporter.__iter__ for one record (lines 126-144): date
from the day/month/year strings, amount through normalize_num, the message
composed from the four normalized fields with the payer-description
fallback when it comes out empty, then the transaction. -/
def bankRow (g : Getters) (row : Row) : Option TransactionData := do
  let dmy ← g.get_dmy row
  let yi ← parsePyNat dmy.2.2
  let mi ← parsePyNat dmy.2.1
  let di ← parsePyNat dmy.1
  if validDate yi mi di then
    let amountStr ← g.get_amount row
    let amt ← floatNormNum amountStr
    let ttype ← g.get_trans_type row
    let tdesc ← g.get_message row
    let ttarget ← g.get_from_to row
    let tacc ← g.get_acc row
    let msg0 := pyStrip (normalize_field ttype ++ " " ++ normalize_field tdesc
      ++ " " ++ normalize_field ttarget ++ " " ++ normalize_field tacc)
    let tmessage ←
      if msg0 = "" then (List.lookup "Popis příkazce" row).map normalize_field
      else some msg0
    TransactionData.init (some ⟨yi, mi, di⟩) (some amt) none (some tmessage) none
  else none

/-- The shared shape of the per-record generator loops (lines 124-144,
346-389, 392-418, 546-579, 330-341): records are consumed in input order;
a stop record ends the iteration cleanly, any other record yields exactly
one transaction, and a crash during extraction (none) aborts with an
error — so yields happen in record order by construction. -/
def rowLoop {α : Type} (stop : α → Bool) (parse : α → Option TransactionData) :
    List α → List TransactionData × Bool
  | [] => ([], false)
  | r :: rest =>
    if stop r then ([], false)
    else
      match parse r with
      | none => ([], true)
      | some t =>
        let res := rowLoop stop parse rest
        (t :: res.1, res.2)

/-- BankImporter.__iter__ (lines 124-144) over the records of its
DictReader: one transaction per record, no stop condition (the underlying
dirty_csv_iterator already ends the stream at the blank line). -/
def bankIter (g : Getters) (rows : List Row) : List TransactionData × Bool :=
  rowLoop (fun _ => false) (bankRow g) rows

/-- The header-sniff prefix of the unicredit and zuno loops (lines
348-351, 396-399): records before the recognized header row are skipped
and yield nothing; the records after it go to the data loop. -/
def skipThenData {α : Type} (isHeader : α → Bool)
    (data : List α → List TransactionData × Bool) :
    List α → List TransactionData × Bool
  | [] => ([], false)
  | r :: rest =>
    if isHeader r then data rest
    else skipThenData isHeader data rest

/-- One data row of UnicreditImport.__iter__ (lines 355-389): date from
column 3 (dash separated, year first), amount from column 1, destination
composed from the bank and account columns when the account number is
non-empty, the card-payment fallback scanning detail columns 18 down to 13
for the first non-empty normalized value, and the message as the
normalized join of columns 13-18. -/
def unicreditRow (row : List String) : Option TransactionData :=
  match row.get? 3, row.get? 1, row.get? 5, row.get? 6, row.get? 7,
        row.get? 8, row.get? 9, row.get? 13, row.get? 14, row.get? 15,
        row.get? 16, row.get? 17, row.get? 18 with
  | some col3, some col1, some bank_no, some col6, some col7, some col8,
    some col9, some col13, some col14, some col15, some col16, some col17,
    some col18 =>
    (match (col3.toList.splitOn '-').map List.asString with
     | [y, m, d] =>
       (match parsePyNat y, parsePyNat m, parsePyNat d with
        | some yi, some mi, some di =>
          if validDate yi mi di then
            match floatNormNum col1 with
            | some amt =>
              let bank_name := pyStrip (normalize_field col6 ++ " "
                ++ normalize_field col7)
              let account_number := normalize_field col8
              let account_name := normalize_field col9
              let tdest0 : Option String :=
                if account_number = "" then none
                else some (bank_name ++ ": " ++ account_number ++ "/" ++ bank_no
                  ++ " " ++ account_name)
              let t_type := pyStrip col13
              let tdest : Option String :=
                if t_type = "PLATBA PLATEBNÍ KARTOU" ∧ tdest0 = none then
                  ([col18, col17, col16, col15, col14, col13].map
                    normalize_field).find? (fun v => v != "")
                else tdest0
              let tmessage := normalize_field (col13 ++ " " ++ col14 ++ " "
                ++ col15 ++ " " ++ col16 ++ " " ++ col17 ++ " " ++ col18)
              TransactionData.init (some ⟨yi, mi, di⟩) (some amt) tdest
                (some tmessage) none
            | none => none
          else none
        | _, _, _ => none)
     | _ => none)
  | _, _, _, _, _, _, _, _, _, _, _, _, _ => none

/-- The data phase of UnicreditImport.__iter__: an empty row stops the
iteration, every other row yields its transaction. -/
def unicreditData : List (List String) → List TransactionData × Bool :=
  rowLoop (fun r => r.isEmpty) unicreditRow

/-- UnicreditImport.__iter__ (lines 346-389): sniff for the header row
whose first cell is the account caption, then run the data phase. -/
def unicreditIter : List (List String) → List TransactionData × Bool :=
  skipThenData (fun r => r.head? == some "Účet") unicreditData

/-- One data row of ZunoImport.__iter__ (lines 400-418): date from column
0 (dot separated, day first), amount from column 6, destination from the
account and bank-code columns when the account number is non-empty,
message from column 5. -/
def zunoRow (row : List String) : Option TransactionData :=
  match row.get? 0, row.get? 6, row.get? 3, row.get? 4, row.get? 5 with
  | some col0, some col6, some col3, some col4, some col5 =>
    (match (col0.toList.splitOn '.').map List.asString with
     | [d, m, y] =>
       (match parsePyNat d, parsePyNat m, parsePyNat y with
        | some di, some mi, some yi =>
          if validDate yi mi di then
            match floatNormNum col6 with
            | some amt =>
              let account_number := normalize_field col3
              let bank_code := normalize_field col4
              let tdest : Option String :=
                if account_number = "" then none
                else some (pyStrip (account_number ++ "/" ++ bank_code))
              TransactionData.init (some ⟨yi, mi, di⟩) (some amt) tdest
                (some (normalize_field col5)) none
            | none => none
          else none
        | _, _, _ => none)
     | _ => none)
  | _, _, _, _, _ => none

/-- The data phase of ZunoImport.__iter__: a row of at most one cell stops
the iteration. -/
def zunoData : List (List String) → List TransactionData × Bool :=
  rowLoop (fun r => decide (r.length ≤ 1)) zunoRow

/-- ZunoImport.__iter__ (lines 392-418): sniff for the header row whose
first cell is the transaction-date caption, then run the data phase. -/
def zunoIter : List (List String) → List TransactionData × Bool :=
  skipThenData (fun r => r.head? == some "Dátum transakcie:") zunoData

/-- One row of SlSpImport.__iter__ (lines 546-579): date from column 0
(dot separated, day first), amount from column 7, destination from the
account, prepend and bank-code columns, message composed from the name,
information and extended-information columns with the account name
appended when present. -/
def slspRow (row : List String) : Option TransactionData := do
  let col0 ← row.get? 0
  let dmy ← (match (col0.toList.splitOn '.').map List.asString with
    | [d, m, y] => some (d, m, y)
    | _ => none)
  let di ← parsePyNat dmy.1
  let mi ← parsePyNat dmy.2.1
  let yi ← parsePyNat dmy.2.2
  if validDate yi mi di then
    let col7 ← row.get? 7
    let amt ← floatNormNum col7
    let col4 ← row.get? 4
    let col3 ← row.get? 3
    let col5 ← row.get? 5
    let account_number := normalize_field col4
    let prepend_number := normalize_field col3
    let bank_code := normalize_field col5
    let tdest : Option String :=
      if account_number = "" then none
      else
        let t0 := pyStrip (account_number ++ "/" ++ bank_code)
        if prepend_number = "" then some t0
        else some (pyStrip (prepend_number ++ "-" ++ t0))
    let col6 ← row.get? 6
    let col11 ← row.get? 11
    let col16 ← row.get? 16
    let col18 ← row.get? 18
    let col22 ← row.get? 22
    let account_name := normalize_field col6
    let extend_information := normalize_field col18 ++ " " ++ normalize_field col22
    let msg0 := pyStrip (normalize_field col11 ++ " " ++ normalize_field col16
      ++ " " ++ extend_information)
    let tmessage := if account_name = "" then msg0 else msg0 ++ ", " ++ account_name
    TransactionData.init (some ⟨yi, mi, di⟩) (some amt) tdest (some tmessage) none
  else none

/-- SlSpImport.__iter__ (lines 542-579): no header sniff; a row of at most
one cell stops the iteration, every other row yields its transaction. -/
def slspIter : List (List String) → List TransactionData × Bool :=
  rowLoop (fun r => decide (r.length ≤ 1)) slspRow

/-- The 86-character header delimiter of the RaiffeisenBank format
(line 482). -/
def rbHeaderDelim : String := (List.replicate 86 '=').asString

/-- Drop an exact literal prefix from a character list. -/
def dropLiteral : List Char → List Char → Option (List Char)
  | [], cs => some cs
  | _ :: _, [] => none
  | p :: ps, c :: cs => if p == c then dropLiteral ps cs else none

/-- The period pattern of RaiffeisenBankImport (line 486) matched at the
start of a line: the literal period caption, day digits, a dot, month
digits, a dot, then the captured year digits; trailing text is
irrelevant. -/
def rbPeriodYear (line : String) : Option String := do
  let r0 ← dropLiteral "Za období ".toList line.toList
  let d1 := r0.takeWhile Char.isDigit
  if d1.isEmpty then none else
  match r0.dropWhile Char.isDigit with
  | '.' :: r1 =>
    let d2 := r1.takeWhile Char.isDigit
    if d2.isEmpty then none else
    match r1.dropWhile Char.isDigit with
    | '.' :: r2 =>
      let d3 := r2.takeWhile Char.isDigit
      if d3.isEmpty then none else some d3.asString
    | _ => none
  | _ => none

/-- The errors that abort RaiffeisenBankImport.__iter__ before any yield:
the preamble scan exhausting the input (next() raising StopIteration
inside the generator, a RuntimeError under PEP 479), the missing statement
year (ValueError, line 500), and the AttributeError of constructing the
initial TransactionData with its message left absent (line 502). -/
inductive RbError
  | inputExhausted
  | yearNotFound
  | noneMessage
deriving DecidableEq, Repr

/-- The preamble scan of RaiffeisenBankImport.__iter__ (lines 489-500):
consume lines until the fifth header delimiter, remembering the year of
the last period line seen; then the year must have been found. -/
def rbScan : Nat → Option String → List String → Except RbError String
  | 0, year, _ =>
    match year with
    | none => Except.error RbError.yearNotFound
    | some y => Except.ok y
  | _ + 1, _, [] => Except.error RbError.inputExhausted
  | k + 1, year, row :: rest =>
    let cnt := if pyStrip row = rbHeaderDelim then k else k + 1
    let year2 := match rbPeriodYear row with
      | some y => some y
      | none => year
    rbScan cnt year2 rest

/-- RaiffeisenBankImport.__iter__ (lines 488-539): after the preamble
scan, line 502 constructs the initial TransactionData with every argument
left at its default, which fails before the record loop is entered, so
the importer never yields a transaction (the remaining loop body, lines
504-539, is unreachable). -/
def rbIter (lines : List String) : List TransactionData × Option RbError :=
  match rbScan 5 none lines with
  | Except.error e => ([], some e)
  | Except.ok _ =>
    match TransactionData.init none none none none none with
    | none => ([], some RbError.noneMessage)
    | some _ => ([], none)

/-- A parsed markup element: tag, direct text, child elements in document
order, and the tail text following the element — the ElementTree shape
consumed by MBankHTMLImport. -/
inductive Elem where
  | mk (tag : String) (text : Option String) (children : List Elem) (tail : Option String)

/-- The element's tag. -/
def Elem.tag : Elem → String
  | Elem.mk t _ _ _ => t

/-- The element's direct text. -/
def Elem.text : Elem → Option String
  | Elem.mk _ x _ _ => x

/-- The element's child elements. -/
def Elem.children : Elem → List Elem
  | Elem.mk _ _ cs _ => cs

/-- Join a list of strings with single spaces. -/
def joinSpaces (parts : List String) : String :=
  (List.intercalate [' '] (parts.map String.toList)).asString

/-- plain_content (lines 314-320), flattened over a child list: for each
child its text, its own plain content, and its tail. -/
def plainParts : List Elem → List String
  | [] => []
  | Elem.mk _ tx ch tl :: cs =>
    (tx.getD "") :: joinSpaces (plainParts ch) :: (tl.getD "") :: plainParts cs

/-- plain_content (lines 314-320): the space-join of the parts of the
element's children. -/
def plain_content (e : Elem) : String := joinSpaces (plainParts e.children)

/-- findall of the descendant table path (line 332): every descendant
element tagged table, in document order. -/
def findTablesIn : List Elem → List Elem
  | [] => []
  | Elem.mk t x ch tl :: cs =>
    (if t = "table" then [Elem.mk t x ch tl] else [])
      ++ findTablesIn ch ++ findTablesIn cs

/-- The descendant td elements that sit at the given 1-based position
among the td children of their own parent, in document order — the
ElementTree semantics of the positional td path step (checked against the
library: position counts same-tag siblings, candidates are collected over
all descendants in document order). -/
def tdsAtPos (k : Nat) : Nat → List Elem → List Elem
  | _, [] => []
  | seen, Elem.mk t x ch tl :: cs =>
    let seen2 := if t = "td" then seen + 1 else seen
    (if t = "td" ∧ seen2 = k then [Elem.mk t x ch tl] else [])
      ++ tdsAtPos k 0 ch ++ tdsAtPos k seen2 cs

/-- find of the positional-td-then-nobr path (lines 334 and 336): the
first nobr child over the positional td candidates in document order,
backtracking across candidates (checked against the library). -/
def findTdNobr (k : Nat) (row : Elem) : Option Elem :=
  ((tdsAtPos k 0 row.children).flatMap
    (fun td => td.children.filter (fun c => c.tag == "nobr"))).head?

/-- find of the plain positional td path (line 339): the first candidate. -/
def findTdAt (k : Nat) (row : Elem) : Option Elem :=
  (tdsAtPos k 0 row.children).head?

/-- strptime with the day.month.year format (line 335): one or two day and
month digits, up to four year digits, nothing further, the values forming
a valid calendar date. -/
def strptimeDMY (s : String) : Option Date :=
  match (s.toList.splitOn '.').map List.asString with
  | [d, m, y] =>
    match parseDigits d.toList, parseDigits m.toList, parseDigits y.toList with
    | some di, some mi, some yi =>
      if d.length ≤ 2 ∧ m.length ≤ 2 ∧ y.length ≤ 4 ∧ validDate yi mi di
      then some ⟨yi, mi, di⟩ else none
    | _, _, _ => none
  | _ => none

/-- One row of MBankHTMLImport.__iter__ (lines 334-341): date text from
the third-td nobr, amount text from the fifth-td nobr with its embedded
dots removed, and the message as the normalized plain content of the
fourth td.  A missing element or unparseable field crashes the Python
loop, modelled none. -/
def mbankHtmlRow (row : Elem) : Option TransactionData := do
  let nb3 ← findTdNobr 3 row
  let dstr ← nb3.text
  let dt ← strptimeDMY dstr
  let nb5 ← findTdNobr 5 row
  let astr ← nb5.text
  let amt ← floatNormNum ((astr.toList.filter (fun c => c != '.')).asString)
  let td4 ← findTdAt 4 row
  TransactionData.init (some dt) (some amt) none
    (some (normalize_field (plain_content td4))) none

/-- The row loop of MBankHTMLImport.__iter__: one transaction per table
row, in document order. -/
def mbankHtmlLoop : List Elem → List TransactionData × Bool :=
  rowLoop (fun _ => false) mbankHtmlRow

/-- The rows MBankHTMLImport.__iter__ walks (lines 332-333): the children
of the sixth descendant table, without the first two and the last. -/
def mbankHtmlRowsOf (root : Elem) : Option (List Elem) := do
  let table ← (findTablesIn root.children).get? 5
  pure ((table.children.drop 2).dropLast)

/-- MBankHTMLImport.__iter__ (lines 330-341) over a parsed document. -/
def mbankHtmlIter (root : Elem) : List TransactionData × Bool :=
  match mbankHtmlRowsOf root with
  | none => ([], true)
  | some rows => mbankHtmlLoop rows

/-- A fio input line that parses as a transaction: transaction record tag
and well-formed fields. -/
def fioLineOk (l : String) : Prop :=
  strSlice l 0 3 = "075" ∧ fioParseBody l ≠ none

/-- A well-formed GPC transaction line: tag 075, identifier 0000000000123,
scaled amount 000000150000, type digit 1 (debit), bank code 0000000100, an
all-zero destination account, message TEST, date 31 12 20.  Offsets: tag
0-3, destination account 19-35, identifier 35-48, amount 48-60, type 60,
bank code 71-81, message 97-117, date 122-128. -/
def fioLineEx : String :=
  "075" ++ "0000000000000000" ++ "0000000000000000" ++ "0000000000123"
    ++ "000000150000" ++ "1" ++ "0000000000" ++ "0000000100"
    ++ "0000000000000000" ++ "TEST                " ++ "00000" ++ "311220"

/-- The transaction encoded by fioLineEx. -/
def fioTransEx : TransactionData :=
  { date := some ⟨2020, 12, 31⟩, amount := some (-1500), destination := none,
    message := "TEST", ident := some "0000000000123", splits := [] }

/-- A transaction with exactly one split. -/
def c2t : TransactionData :=
  { date := some ⟨2021, 3, 4⟩, amount := none, destination := some "a/b",
    message := "memo", ident := none, splits := [⟨5, some "fee"⟩] }

/-- A two-split transaction on which rounding each split first differs from
rounding the raw sum once: splits 1.004 and 1.004 round to 1.00 each while
their sum 2.008 rounds to 2.01. -/
def c5t : TransactionData :=
  { date := some ⟨2020, 1, 2⟩, amount := none, destination := none,
    message := "", ident := none,
    splits := [⟨1004 / 1000, none⟩, ⟨1004 / 1000, none⟩] }

/-- An optional tagged line in terms of the Python truthiness test the
serializer performs. -/
theorem optLine_eq_truthy (tag : String) (o : Option String) :
    optLine tag o = if optTruthy o then [tag ++ o.getD ""] else [] := by
  cases o with
  | none => rfl
  | some v =>
    by_cases hv : v = ""
    · subst hv
      simp [optLine, optTruthy]
      decide
    · have hne : v.isEmpty = false := by
        rw [Bool.eq_false_iff]
        intro hcon
        exact hv ((String.isEmpty_iff v).mp hcon)
      simp [optLine, optTruthy, hv, hne]

/-- The split lines of the source serializer match the spec wording. -/
theorem splitLines_eq_spec (s : SplitItem) : splitLines s = specSplitLines s := by
  simp [splitLines, specSplitLines, optLine_eq_truthy]

/-- The per-transaction block of write_qif matches the spec wording. -/
theorem qifBlock_eq_specBlock (t : TransactionData) :
    qifBlock t = specBlock t := by
  unfold qifBlock specBlock
  cases hd : t.date with
  | none => simp
  | some dt =>
    cases ha : t.get_amount with
    | none => simp
    | some amt =>
      have hsplit : splitLines = specSplitLines := funext splitLines_eq_spec
      simp only [Option.some_bind, optLine_eq_truthy, optTruthy, Option.getD_some,
        Bool.not_eq_true, pure]
      by_cases hlen : 2 ≤ t.splits.length
      · have hgt : t.splits.length > 1 := hlen
        simp [hgt, hlen, optLine_eq_truthy, hsplit]
      · have hgt : ¬(t.splits.length > 1) := hlen
        simp [hgt, hlen, optLine_eq_truthy]

/-- The mapM of the spec serializer agrees with the block loop of
write_qif. -/
theorem mapM_specBlock (ts : List TransactionData) :
    ts.mapM specBlock = qifBlocks ts := by
  induction ts with
  | nil => rfl
  | cons t ts ih =>
    rw [List.mapM_cons, ih, ← qifBlock_eq_specBlock]
    cases hb : qifBlock t <;> cases hbs : qifBlocks ts <;>
      simp [qifBlocks, hb, hbs]

/-- Claim C1: write_qif emits exactly one leading type declaration line and
then, per transaction in order, one block made of the D month/day/year
line with unpadded numbers, the two-decimal T line, a # identifier line
only when an identifier is present (and non-empty), an M line only when
the message is non-empty, a P line only when a destination is present (and
non-empty), split E/dollar pairs only when two or more splits exist, and a
closing caret line; absent optional fields produce no line at all. -/
theorem c1_write_qif_format (ts : List TransactionData) :
    write_qif ts = serializeSpec ts := by
  unfold write_qif serializeSpec
  rw [mapM_specBlock]
  cases h : qifBlocks ts <;> simp [h]

/-- Claim C2: the effective amount of the T line is the split sum when
splits are non-empty and the plain amount field otherwise, and a
transaction with exactly one split serializes identically to the plain
transaction carrying that amount. -/
theorem c2_amount_and_single_split :
    (∀ t : TransactionData,
       (t.splits ≠ [] →
          t.get_amount = some ((t.splits.map SplitItem.amount).sum)) ∧
       (t.splits = [] → t.get_amount = t.amount)) ∧
    (∀ (t : TransactionData) (s : SplitItem), t.splits = [s] →
       qifBlock t = qifBlock { t with amount := some s.amount, splits := [] }) := by
  constructor
  · intro t
    constructor
    · intro h
      simp [TransactionData.get_amount, h]
    · intro h
      simp [TransactionData.get_amount, h]
  · intro t s h
    unfold qifBlock
    simp [TransactionData.get_amount, h]

/-- Claim C2 witness: a concrete one-split transaction. -/
theorem c2_witness :
    c2t.get_amount = some ((c2t.splits.map SplitItem.amount).sum) ∧
    qifBlock c2t = qifBlock { c2t with amount := some 5, splits := [] } :=
  ⟨(c2_amount_and_single_split.1 c2t).1 (by decide),
   c2_amount_and_single_split.2 c2t ⟨5, some "fee"⟩ rfl⟩

/-- Claim C3: on every fixed-width transaction line that parses, the
effective amount is the 12-digit field at offsets 48-60 read as minor
units over 100, negated exactly when the type digit at offset 60 is 1 or
5; and the concrete line with type digit 1 and scaled amount 150000
yields exactly -1500.00. -/
theorem c3_fio_amount :
    (∀ (line : String) (t : TransactionData) (c : Char) (cents : Nat),
       fioParseBody line = some t →
       charAt line 60 = some c →
       parseDigits (strSlice line 48 60).toList = some cents →
       t.amount = some (if digitVal c = 1 ∨ digitVal c = 5
                        then -((cents : ℚ) / 100) else (cents : ℚ) / 100)) ∧
    (fioParseBody fioLineEx = some fioTransEx ∧
       fioTransEx.amount = some (-1500) ∧ fmt2 (-1500) = "-1500.00") := by
  constructor
  · intro line t c cents h h60 hc
    simp only [fioParseBody, h60, hc] at h
    split at h
    · split at h
      · split at h
        · simp only [TransactionData.init, Option.some.injEq] at h
          rw [← h]
        · exact absurd h (by simp)
      · exact absurd h (by simp)
    · exact absurd h (by simp)
  · exact ⟨by decide, by decide, by decide⟩

/-- Claim C3 witness: the formula applied to the concrete line. -/
theorem c3_witness :
    fioTransEx.amount = some (if digitVal '1' = 1 ∨ digitVal '1' = 5
        then -((150000 : ℚ) / 100) else (150000 : ℚ) / 100) :=
  c3_fio_amount.1 fioLineEx fioTransEx '1' 150000 (by decide) (by decide)
    (by decide)

/-- If every line of a block parses as a transaction line and the next line
fails the record-tag check, the fio loop stops with the framing error
naming that line. -/
theorem fioGo_bad_after_ok :
    ∀ (pre : List String) (n : Nat) (bad : String) (post : List String),
      (∀ l ∈ pre, fioLineOk l) →
      strSlice bad 0 3 ≠ "075" →
      (fioGo n (pre ++ bad :: post)).2 =
        some (FioError.badRecordType (n + pre.length + 1)) := by
  intro pre
  induction pre with
  | nil =>
    intro n bad post _ hbad
    simp only [List.nil_append, fioGo, fioLine, if_pos hbad]
    simp
  | cons l pre ih =>
    intro n bad post hok hbad
    have hl : fioLineOk l := hok l (by simp)
    obtain ⟨htag, hparse⟩ := hl
    cases hp : fioParseBody l with
    | none => exact absurd hp hparse
    | some t =>
      have hline : fioLine (n + 1) l = Except.ok t := by
        simp [fioLine, htag, hp]
      simp only [List.cons_append, fioGo, hline]
      show (fioGo (n + 1) (pre ++ bad :: post)).2 = _
      rw [ih (n + 1) bad post (fun x hx => hok x (by simp [hx])) hbad]
      simp only [List.length_cons, Option.some.injEq, FioError.badRecordType.injEq]
      omega

/-- Claim C4 (amended): an input whose first line is not tagged 074 yields
the framing error naming line 1 and zero transactions; and when the first
line is tagged 074, every line of a prefix block parses as a transaction
line, and the next line is not tagged 075, the iteration fails with the
framing error naming that line's 1-based number. -/
theorem c4_framing :
    (∀ (first : String) (rest : List String), strSlice first 0 3 ≠ "074" →
       fioIter (first :: rest) = ([], some (FioError.badRecordType 1))) ∧
    (∀ (first bad : String) (pre post : List String),
       strSlice first 0 3 = "074" →
       (∀ l ∈ pre, fioLineOk l) →
       strSlice bad 0 3 ≠ "075" →
       (fioIter (first :: (pre ++ bad :: post))).2 =
         some (FioError.badRecordType (pre.length + 2))) := by
  constructor
  · intro first rest h
    simp [fioIter, h]
  · intro first bad pre post h074 hok hbad
    simp only [fioIter, h074, ne_eq, not_true_eq_false, if_false]
    rw [fioGo_bad_after_ok pre 1 bad post hok hbad]
    simp only [Option.some.injEq, FioError.badRecordType.injEq]
    omega

/-- Claim C4 counterexample: with the account tag in place, a line-2
transaction line that carries the correct 075 tag but malformed fields
aborts the run with a field parse error, not with a framing error naming
line 3 where the first bad tag sits. -/
theorem c4_counterexample :
    strSlice "074" 0 3 = "074" ∧
    strSlice "xxx" 0 3 ≠ "075" ∧
    fioIter ["074", "075", "xxx"] = ([], some FioError.valueError) ∧
    some FioError.valueError ≠ some (FioError.badRecordType 3) := by
  refine ⟨by decide, by decide, by decide, by decide⟩

/-- Claim C4 witness: both framing errors at concrete inputs. -/
theorem c4_witness :
    fioIter ["ABC"] = ([], some (FioError.badRecordType 1)) ∧
    (fioIter ["074", fioLineEx, "xxx"]).2 = some (FioError.badRecordType 3) := by
  constructor
  · exact c4_framing.1 "ABC" [] (by decide)
  · exact c4_framing.2 "074" "xxx" [fioLineEx] [] (by decide)
      (by intro l hl; simp only [List.mem_singleton] at hl; subst hl
          exact ⟨by decide, by decide⟩) (by decide)

/-- Claim C5 counterexample: on the concrete two-split transaction c5t the
serialized T line carries 2.01 (the raw split sum 2.008 rounded once)
while the two serialized dollar lines carry 1.00 each, so the T amount is
not the sum of the independently rounded split amounts. -/
theorem c5_counterexample :
    qifBlock c5t = some ["D1/2/2020", "T2.01", "$1.00", "$1.00", "^"] ∧
    round2 ((c5t.splits.map SplitItem.amount).sum) ≠
      (c5t.splits.map (fun s => round2 s.amount)).sum := by
  exact ⟨by decide, by decide⟩

/-- Claim C5 (amended): for a transaction with two or more splits the T
line carries the raw sum of the split amounts rounded once to two
decimals (sum-then-round), not the sum of the individually rounded split
amounts. -/
theorem c5_sum_then_round :
    ∀ (t : TransactionData) (lines : List String), 2 ≤ t.splits.length →
      qifBlock t = some lines →
      lines[1]? = some ("T" ++ fmt2 ((t.splits.map SplitItem.amount).sum)) := by
  intro t lines h2 hb
  have hne : t.splits ≠ [] := by
    intro h
    rw [h] at h2
    simp at h2
  have hga : t.get_amount = some ((t.splits.map SplitItem.amount).sum) := by
    simp [TransactionData.get_amount, hne]
  unfold qifBlock at hb
  cases hd : t.date with
  | none =>
    rw [hd] at hb
    exact absurd hb (by simp)
  | some dt =>
    rw [hd, hga] at hb
    simp only [Option.some.injEq] at hb
    rw [← hb]
    simp

/-- Claim C5 witness: the amended statement at the concrete transaction. -/
theorem c5_witness :
    (["D1/2/2020", "T2.01", "$1.00", "$1.00", "^"] : List String)[1]? =
      some ("T" ++ fmt2 ((c5t.splits.map SplitItem.amount).sum)) :=
  c5_sum_then_round c5t ["D1/2/2020", "T2.01", "$1.00", "$1.00", "^"]
    (by decide) (by decide)

/-- Claim C6: normalize_num returns the absent value exactly when the
cleaned text (commas to dots, spaces removed, trimmed) is empty, and on a
comma-decimal value with embedded thousands spaces it returns the same
number as the plain-decimal spelling. -/
theorem c6_normalize_num :
    (∀ text, normalize_num text = Except.ok none ↔ numClean text = "") ∧
    normalize_num "1 234,56" = Except.ok (some ((123456 : ℚ) / 100)) ∧
    normalize_num "1 234,56" = normalize_num "1234.56" := by
  refine ⟨?_, by decide, by decide⟩
  intro text
  unfold normalize_num
  by_cases h : numClean text = ""
  · simp [h]
  · simp only [h, if_false]
    cases hp : parseDecimal (numClean text) <;> simp [hp, h]

/-- Claim C6 witness: the absence equivalence at the empty input. -/
theorem c6_witness : normalize_num "" = Except.ok none :=
  (c6_normalize_num.1 "").mpr (by decide)

/-- A non-whitespace head passes through the lookahead collapse. -/
theorem collapseLook_cons_of_not_space (c : Char) (rest : List Char)
    (hc : ¬isPySpace c = true) :
    collapseLook (c :: rest) = c :: collapseLook rest := by
  cases rest with
  | nil => simp [collapseLook, hc]
  | cons c2 r2 => simp [collapseLook, hc]

/-- A whitespace head collapses the same way as a single space head. -/
theorem collapseLook_cons_of_space (c : Char) (rest : List Char)
    (hc : isPySpace c = true) :
    collapseLook (c :: rest) = collapseLook (' ' :: rest) := by
  have hsp : isPySpace ' ' = true := by decide
  cases rest with
  | nil => simp [collapseLook, hc, hsp]
  | cons c2 r2 => simp [collapseLook, hc, hsp]

/-- The scanner form of whitespace collapsing agrees with the lookahead
form, in both scanner states. -/
theorem collapseWsGo_eq_look (cs : List Char) :
    collapseWsGo false cs = collapseLook cs ∧
    collapseWsGo true cs = collapseLook (' ' :: cs) := by
  have hsp : isPySpace ' ' = true := by decide
  induction cs with
  | nil => exact ⟨rfl, by simp [collapseWsGo, collapseLook, hsp]⟩
  | cons c rest ih =>
    obtain ⟨ihA, ihB⟩ := ih
    by_cases hc : isPySpace c = true
    · constructor
      · rw [collapseLook_cons_of_space c rest hc, ← ihB]
        simp [collapseWsGo, hc]
      · have h1 : collapseLook (' ' :: c :: rest) = collapseLook (c :: rest) := by
          simp [collapseLook, hc, hsp]
        rw [h1, collapseLook_cons_of_space c rest hc, ← ihB]
        simp [collapseWsGo, hc]
    · constructor
      · rw [collapseLook_cons_of_not_space c rest hc, ← ihA]
        simp [collapseWsGo, hc]
      · have h1 : collapseLook (' ' :: c :: rest) = ' ' :: collapseLook (c :: rest) := by
          simp [collapseLook, hc, hsp]
        rw [h1, collapseLook_cons_of_not_space c rest hc, ← ihA]
        simp [collapseWsGo, hc]

/-- The quote test of normalize_field is membership in the straight quote
set. -/
theorem straightQuote_mem (c : Char) :
    straightQuote c = decide (c ∈ straightQuoteChars) := by
  by_cases h1 : c = '"' <;> by_cases h2 : c = Char.ofNat 39 <;>
    simp [straightQuote, straightQuoteChars, h1, h2]

/-- Claim C7 (amended): normalize_field collapses every whitespace run to a
single space, strips the straight quote characters (curly quotes are left
intact), and trims the result. -/
theorem c7_normalize_field :
    ∀ text, normalize_field text = normalizeFieldSpec text := by
  intro text
  unfold normalize_field normalizeFieldSpec
  rw [show collapseWs text.toList = collapseLook text.toList from
        (collapseWsGo_eq_look text.toList).1]
  rw [show (fun c => !straightQuote c) =
        (fun c => !(decide (c ∈ straightQuoteChars))) from
      funext (fun c => by rw [straightQuote_mem])]

/-- Claim C7 counterexample: the curly right single quote survives
normalize_field, while the claimed normalization (stripping curly quotes
too) removes it. -/
theorem c7_counterexample :
    normalize_field (Char.toString (Char.ofNat 8217)) ≠
      normalizeFieldClaimed (Char.toString (Char.ofNat 8217)) := by
  decide

/-- Claim C8 (code bug evaluation): on a stream with a preamble line, the
header line, one data row, a blank row and a further data row, the
iterator skips the preamble, yields the translated header and the one data
row, and ends by raising StopIteration inside the generator on the blank
row — which the running interpreter (PEP 479) surfaces as a RuntimeError
rather than a clean end of the sequence; the row after the blank is never
read. -/
theorem c8_blank_row_raises :
    dirty_csv_iterator "HDR" [("HDR", "date")]
      ["junk", "HDR;x", "r1;a", "", "r2;b"] =
      (["date;x", "r1;a"], IterEnd.stopIterationRaised) := by
  decide

/-- Claim C10: constructing a TransactionData with every argument left at
its default — as the RaiffeisenBank importer does at the start of each
record — fails (the constructor unconditionally strips the absent
message), rather than producing a transaction without a memo. -/
theorem c10_init_requires_message :
    TransactionData.init none none none none none = none := rfl

end Bank2Qif
